import Mathlib

/-!
Verification of the Pharos Hub client script (`src/assets/scripts/main.js`).

The repository contains three near-duplicate snapshots of the same script in
one file (versions 2.0, 4.0 and 2.1).  Definitions below are shallow
embeddings of the relevant functions; where two snapshots define the same
function identically (e.g. `TASK_LIMITS`, `TaskProgress.getTaskProgress`) a
single definition is given.  Where snapshots disagree, the version is marked
with a suffix (`V1` for the first snapshot, `V2` for the class-based 4.0
snapshot).

JavaScript numbers are modelled exactly: integer-valued data as `Int`,
fractional results of `/` as `Rat`; `Math.floor`/`Math.ceil` as `Int.floor`/
`Int.ceil` on `Rat`.  The JavaScript `x || d` default idiom on numbers treats
`0` (and an absent value) as falsy; it is modelled by `jsOr`.
-/

/-- Models the JavaScript expression `x || d` where `x : Option Int` stands
for a property lookup (`none` = property absent/undefined) and `0` is falsy. -/
def jsOr (x : Option Int) (d : Int) : Int :=
  match x with
  | some v => if v = 0 then d else v
  | none => d

/-- `Math.min` on (exact) JavaScript numbers. -/
def jsMin (a b : Rat) : Rat := if a ≤ b then a else b

/-- `Math.max` on (exact) JavaScript numbers. -/
def jsMax (a b : Rat) : Rat := if a ≤ b then b else a

lemma jsMin_eq_min (a b : Rat) : jsMin a b = min a b := by
  unfold jsMin
  split_ifs with h
  · exact (min_eq_left h).symm
  · exact (min_eq_right (le_of_not_le h)).symm

lemma jsMax_eq_max (a b : Rat) : jsMax a b = max a b := by
  unfold jsMax
  split_ifs with h
  · exact (max_eq_right h).symm
  · exact (max_eq_left (le_of_not_le h)).symm

/-- The `TASK_LIMITS` configuration object (identical in all snapshots,
`main.js` lines 8–28), as the association list of its properties;
`TASK_LIMITS[taskKey]` is modelled by `TASK_LIMITS.lookup taskKey`. -/
def TASK_LIMITS : List (String × Int) :=
  [("send_count", 91), ("swap_count", 91), ("lp_count", 91),
   ("faroswap_swaps", 91), ("faroswap_lp", 91), ("mint_domain", 91),
   ("mint_nft", 1),
   ("primuslabs_send", 91), ("autostaking", 91), ("lend_borrow", 91),
   ("r2_swap", 91), ("r2_earn", 91), ("spout", 91), ("bitverse", 91),
   ("brokex", 91), ("aquaflux", 1)]

/-- Result record of `TaskProgress.getTaskProgress`. -/
structure TaskProgressResult where
  current : Int
  max : Int
  progress : Rat
  isMaxed : Bool
  progressText : String
  valueText : String

/-- `TaskProgress.getTaskProgress(taskKey, currentValue)` (`main.js`
lines 237–250; the 2.1 snapshot repeats it verbatim):
`maxValue = TASK_LIMITS[taskKey] || 91`,
`progress = Math.min((currentValue / maxValue) * 100, 100)`,
`isMaxed = currentValue >= maxValue`. -/
def getTaskProgress (taskKey : String) (currentValue : Int) : TaskProgressResult :=
  let maxValue : Int := jsOr (TASK_LIMITS.lookup taskKey) 91
  let progress : Rat := jsMin ((currentValue : Rat) / (maxValue : Rat) * 100) 100
  let isMaxed : Bool := decide (maxValue ≤ currentValue)
  { current := currentValue
    max := maxValue
    progress := progress
    isMaxed := isMaxed
    progressText := if isMaxed then "Max points achieved!" else "Progress to max points"
    valueText := if isMaxed then "MAXED" else toString currentValue ++ "/" ++ toString maxValue }

lemma getTaskProgress_max_def (k : String) (cv : Int) :
    (getTaskProgress k cv).max = jsOr (TASK_LIMITS.lookup k) 91 := rfl

lemma getTaskProgress_progress_def (k : String) (cv : Int) :
    (getTaskProgress k cv).progress =
      min ((cv : Rat) / ((jsOr (TASK_LIMITS.lookup k) 91 : Int) : Rat) * 100) 100 := by
  rw [show (getTaskProgress k cv).progress =
      jsMin ((cv : Rat) / ((jsOr (TASK_LIMITS.lookup k) 91 : Int) : Rat) * 100) 100 from rfl]
  exact jsMin_eq_min _ _

lemma getTaskProgress_isMaxed_def (k : String) (cv : Int) :
    (getTaskProgress k cv).isMaxed = decide (jsOr (TASK_LIMITS.lookup k) 91 ≤ cv) := rfl

/-- Auxiliary: if every value of an association list is either 0 (falsy,
replaced by the default) or at least 1, the `lookup ... || d` idiom with a
default `d ≥ 1` always yields a value of at least 1. -/
lemma one_le_jsOr_lookup (d : Int) (hd : 1 ≤ d) :
    ∀ (l : List (String × Int)), (∀ p ∈ l, p.2 = 0 ∨ 1 ≤ p.2) →
      ∀ k, 1 ≤ jsOr (l.lookup k) d := by
  intro l
  induction l with
  | nil => intro _ k; simpa [List.lookup, jsOr] using hd
  | cons p t ih =>
    intro hl k
    obtain ⟨a, b⟩ := p
    have hb : b = 0 ∨ 1 ≤ b := hl (a, b) (List.mem_cons_self _ _)
    cases hk : k == a
    · have hlk : List.lookup k ((a, b) :: t) = List.lookup k t := by
        simp [List.lookup, hk]
      rw [hlk]
      exact ih (fun q hq => hl q (List.mem_cons_of_mem _ hq)) k
    · have hlk : List.lookup k ((a, b) :: t) = some b := by
        simp [List.lookup, hk]
      rw [hlk]
      rcases hb with hb0 | hb1
      · simp [jsOr, hb0]; exact hd
      · have hj : jsOr (some b) d = b := by
          simp only [jsOr]
          rw [if_neg (by omega)]
        rw [hj]; exact hb1

/-- Every cap produced by the `TASK_LIMITS[taskKey] || 91` lookup is at
least 1: the configured values are 91 and 1, and any missing (or falsy)
value falls back to 91. -/
lemma one_le_taskCap (key : String) : 1 ≤ jsOr (TASK_LIMITS.lookup key) 91 := by
  apply one_le_jsOr_lookup 91 (by norm_num)
  decide

/-- C9: for every task identifier — including identifiers missing from
`TASK_LIMITS` — the cap actually used by `getTaskProgress` is at least 1
(hence nonzero as a divisor), because the `|| 91` fallback replaces any
missing or falsy configured value with 91. -/
theorem getTaskProgress_max_positive (taskKey : String) (cv : Int) :
    1 ≤ (getTaskProgress taskKey cv).max ∧
    ((getTaskProgress taskKey cv).max : Rat) ≠ 0 := by
  have h := one_le_taskCap taskKey
  rw [getTaskProgress_max_def]
  refine ⟨h, ?_⟩
  have : (0 : Rat) < ((jsOr (TASK_LIMITS.lookup taskKey) 91 : Int) : Rat) := by
    exact_mod_cast lt_of_lt_of_le Int.zero_lt_one h
  exact ne_of_gt this

/-- C1: for every task identifier and every integer `currentValue ≥ 0`,
`getTaskProgress` returns a progress percentage in `[0, 100]`, equal to
`min(currentValue / max * 100, 100)`, and the percentage equals 100 exactly
when `isMaxed` (`currentValue >= max`) is true.  The cap `max` is always
positive (see `one_le_taskCap`), discharging the claim's `max > 0` premise. -/
theorem getTaskProgress_percent_range_iff_maxed (taskKey : String) (cv : Int)
    (h : 0 ≤ cv) :
    0 ≤ (getTaskProgress taskKey cv).progress ∧
    (getTaskProgress taskKey cv).progress ≤ 100 ∧
    (getTaskProgress taskKey cv).progress =
      min ((cv : Rat) / ((getTaskProgress taskKey cv).max : Rat) * 100) 100 ∧
    ((getTaskProgress taskKey cv).progress = 100 ↔
      (getTaskProgress taskKey cv).isMaxed = true) := by
  have hm : 1 ≤ jsOr (TASK_LIMITS.lookup taskKey) 91 := one_le_taskCap taskKey
  have hmQ : (0 : Rat) < ((jsOr (TASK_LIMITS.lookup taskKey) 91 : Int) : Rat) := by
    exact_mod_cast lt_of_lt_of_le Int.zero_lt_one hm
  have hcvQ : (0 : Rat) ≤ (cv : Rat) := by exact_mod_cast h
  rw [getTaskProgress_progress_def, getTaskProgress_isMaxed_def,
    getTaskProgress_max_def]
  refine ⟨?_, min_le_right _ _, rfl, ?_⟩
  · refine le_min ?_ (by norm_num)
    positivity
  · rw [min_eq_right_iff, decide_eq_true_eq]
    rw [div_mul_eq_mul_div, le_div_iff₀ hmQ]
    constructor
    · intro h100
      have : ((jsOr (TASK_LIMITS.lookup taskKey) 91 : Int) : Rat) ≤ (cv : Rat) := by
        nlinarith
      exact_mod_cast this
    · intro hle
      have : ((jsOr (TASK_LIMITS.lookup taskKey) 91 : Int) : Rat) ≤ (cv : Rat) := by
        exact_mod_cast hle
      nlinarith

/-- Witness for C1 at concrete inputs: the capped task `mint_nft` (cap 1)
evaluated at `currentValue = 0`. -/
theorem getTaskProgress_percent_range_iff_maxed_witness :
    0 ≤ (0 : Int) ∧
    (0 ≤ (getTaskProgress "mint_nft" 0).progress ∧
      (getTaskProgress "mint_nft" 0).progress ≤ 100 ∧
      (getTaskProgress "mint_nft" 0).progress =
        min ((0 : Rat) / ((getTaskProgress "mint_nft" 0).max : Rat) * 100) 100 ∧
      ((getTaskProgress "mint_nft" 0).progress = 100 ↔
        (getTaskProgress "mint_nft" 0).isMaxed = true)) :=
  ⟨le_refl 0, by
    have h := getTaskProgress_percent_range_iff_maxed "mint_nft" 0 (le_refl 0)
    simpa using h⟩

/-- `CONFIG.LEVEL_THRESHOLDS` (v4.0 snapshot, `main.js` line 922) and the
identical `LevelCalculator.levels` of the v2.1 snapshot (line 2511):
level number → minimum point total for that level. -/
def CONFIG_LEVEL_THRESHOLDS (n : Int) : Option Int :=
  if n = 1 then some 0
  else if n = 2 then some 1001
  else if n = 3 then some 3501
  else if n = 4 then some 6001
  else if n = 5 then some 10001
  else none

/-- The inter-threshold gap `pointsForLevel = nextLevelPoints -
currentLevelPoints` computed by `UIStateManager.updateLevelProgress`
(`main.js` lines 1704–1712) from a threshold table:
`nextLevel = Math.min(current_level + 1, 5)`,
`nextLevelPoints = levels[nextLevel] || 20001`,
`currentLevelPoints = levels[current_level] || 0`. -/
def pointsForLevelJS (levels : Int → Option Int) (current_level : Int) : Int :=
  jsOr (levels (min (current_level + 1) 5)) 20001 - jsOr (levels current_level) 0

/-- The progress percentage computed by `UIStateManager.updateLevelProgress`
(`main.js` lines 1702–1715):
`isMaxLevel = current_level >= 5`;
`percentage = isMaxLevel ? 100 : (pointsForLevel > 0 ?
(progressInLevel / pointsForLevel) * 100 : 100)`.
The table `levels` is a parameter standing for the ambient
`CONFIG.LEVEL_THRESHOLDS` object the code reads. -/
def updateLevelProgressPercent (levels : Int → Option Int)
    (current_level total_points : Int) : Rat :=
  let currentLevelPoints := jsOr (levels current_level) 0
  let nextLevelPoints := jsOr (levels (min (current_level + 1) 5)) 20001
  let progressInLevel := total_points - currentLevelPoints
  let pointsForLevel := nextLevelPoints - currentLevelPoints
  if 5 ≤ current_level then 100
  else if 0 < pointsForLevel then (progressInLevel : Rat) / (pointsForLevel : Rat) * 100
  else 100

/-- The progress percentage computed by `LevelCalculator.addPointsNeededInfo`
(v2.1 snapshot, `main.js` lines 2521–2537); it first caps the level:
`currentLevel = Math.min(data.current_level, 5)`,
`nextLevel = Math.min(currentLevel + 1, 5)`, then applies the same
`isMaxLevel ? 100 : (pointsForLevel > 0 ? ... : 100)` formula. -/
def addPointsNeededInfoPercent (levels : Int → Option Int)
    (current_level total_points : Int) : Rat :=
  let currentLevel := min current_level 5
  let nextLevel := min (currentLevel + 1) 5
  let currentLevelPoints := jsOr (levels currentLevel) 0
  let nextLevelPoints := jsOr (levels nextLevel) 20001
  let progressInLevel := total_points - currentLevelPoints
  let pointsForLevel := nextLevelPoints - currentLevelPoints
  if 5 ≤ currentLevel then 100
  else if 0 < pointsForLevel then (progressInLevel : Rat) / (pointsForLevel : Rat) * 100
  else 100

/-- `LevelCalculator.levels` of the v2.0 snapshot (`main.js` lines 376–382):
level number → `{ min, max }` point range; level 5 is `{10001, 20000}`. -/
def levelsV1 (n : Int) : Option (Int × Int) :=
  if n = 1 then some (0, 1000)
  else if n = 2 then some (1001, 3500)
  else if n = 3 then some (3501, 6000)
  else if n = 4 then some (6001, 10000)
  else if n = 5 then some (10001, 20000)
  else none

/-- The level-progress bar width set by the v2.0 `PharosAPI.displayResults`
(`main.js` lines 471–485): `currentLevel = Math.min(data.current_level, 5)`;
if `levels[currentLevel]` exists, width is
`Math.max(0, Math.min((total_points - min) / (max - min) * 100, 100))`,
otherwise the bar is not updated (`none`). -/
def displayResultsLevelWidthV1 (current_level total_points : Int) : Option Rat :=
  match levelsV1 (min current_level 5) with
  | none => none
  | some lv =>
    let progressInLevel := total_points - lv.1
    let pointsForLevel := lv.2 - lv.1
    let percentage := jsMin ((progressInLevel : Rat) / (pointsForLevel : Rat) * 100) 100
    some (jsMax 0 percentage)

/-- C2 counterexample: in the v2.0 snapshot's `PharosAPI.displayResults`, a
payload at the maximum level 5 with `total_points = 15000` (above the top
threshold 10001) yields a *partial* bar of 499900/9999 ≈ 49.995%, not 100%. -/
theorem displayResultsV1_maxLevel_bar_below_hundred :
    displayResultsLevelWidthV1 5 15000 = some (499900 / 9999 : Rat) ∧
    (displayResultsLevelWidthV1 5 15000).getD 0 < 100 ∧
    displayResultsLevelWidthV1 5 15000 ≠ some 100 := by
  have hval : displayResultsLevelWidthV1 5 15000 = some (499900 / 9999 : Rat) := by
    unfold displayResultsLevelWidthV1 levelsV1 jsMin jsMax
    norm_num
  refine ⟨hval, ?_, ?_⟩
  · rw [hval]
    norm_num
  · rw [hval]
    intro hcontra
    rw [Option.some_inj] at hcontra
    norm_num at hcontra

/-- C2 (amended): in `UIStateManager.updateLevelProgress` (and likewise in
`LevelCalculator.addPointsNeededInfo` of the v2.1 snapshot), any payload
whose `current_level` is at or above the maximum level 5 gets
`percent = 100` regardless of `total_points` (and of the threshold table);
the displayed width `Math.min(percentage, 100)` is also 100. -/
theorem updateLevelProgress_maxLevel_percent (levels : Int → Option Int)
    (current_level total_points : Int) (h : 5 ≤ current_level) :
    updateLevelProgressPercent levels current_level total_points = 100 ∧
    min (updateLevelProgressPercent levels current_level total_points) 100 = 100 ∧
    addPointsNeededInfoPercent levels current_level total_points = 100 := by
  have hmin : min current_level 5 = 5 := min_eq_right h
  constructor
  · unfold updateLevelProgressPercent
    rw [if_pos h]
  constructor
  · unfold updateLevelProgressPercent
    rw [if_pos h]
    norm_num
  · unfold addPointsNeededInfoPercent
    rw [hmin]
    norm_num

/-- Witness for C2 (amended) at `current_level = 6`, `total_points = -50`,
with the real threshold table. -/
theorem updateLevelProgress_maxLevel_percent_witness :
    (5 : Int) ≤ 6 ∧
    updateLevelProgressPercent CONFIG_LEVEL_THRESHOLDS 6 (-50) = 100 ∧
    min (updateLevelProgressPercent CONFIG_LEVEL_THRESHOLDS 6 (-50)) 100 = 100 ∧
    addPointsNeededInfoPercent CONFIG_LEVEL_THRESHOLDS 6 (-50) = 100 :=
  ⟨by norm_num,
    (updateLevelProgress_maxLevel_percent CONFIG_LEVEL_THRESHOLDS 6 (-50)
      (by norm_num)).1,
    (updateLevelProgress_maxLevel_percent CONFIG_LEVEL_THRESHOLDS 6 (-50)
      (by norm_num)).2.1,
    (updateLevelProgress_maxLevel_percent CONFIG_LEVEL_THRESHOLDS 6 (-50)
      (by norm_num)).2.2⟩

/-- C8: for every threshold table and every non-max level whose
inter-threshold gap `pointsForLevel` is 0 or negative, both
`UIStateManager.updateLevelProgress` and `LevelCalculator.addPointsNeededInfo`
take the guarded branch and report `percent = 100` instead of dividing by the
non-positive gap. -/
theorem levelProgress_nonpos_gap_guard (levels : Int → Option Int)
    (current_level total_points : Int) (hcl : current_level < 5)
    (hgap : pointsForLevelJS levels current_level ≤ 0) :
    updateLevelProgressPercent levels current_level total_points = 100 ∧
    addPointsNeededInfoPercent levels current_level total_points = 100 := by
  have hnotmax : ¬ (5 ≤ current_level) := not_le.mpr hcl
  have hmin : min current_level 5 = current_level := min_eq_left (le_of_lt hcl)
  have hgap' : ¬ (0 < jsOr (levels (min (current_level + 1) 5)) 20001 -
      jsOr (levels current_level) 0) := by
    unfold pointsForLevelJS at hgap
    omega
  constructor
  · unfold updateLevelProgressPercent
    rw [if_neg hnotmax, if_neg hgap']
  · unfold addPointsNeededInfoPercent
    rw [hmin]
    rw [if_neg hnotmax, if_neg hgap']

/-- A malformed threshold table whose gap between level 2 and level 3 is
negative (300 − 500). -/
def malformedLevels (n : Int) : Option Int :=
  if n = 2 then some 500 else if n = 3 then some 300 else none

/-- Witness for C8: at level 2 of `malformedLevels` the gap is −200 ≤ 0 and
both computations return 100. -/
theorem levelProgress_nonpos_gap_guard_witness :
    (2 : Int) < 5 ∧ pointsForLevelJS malformedLevels 2 ≤ 0 ∧
    updateLevelProgressPercent malformedLevels 2 1000 = 100 ∧
    addPointsNeededInfoPercent malformedLevels 2 1000 = 100 :=
  ⟨by norm_num, by decide,
    (levelProgress_nonpos_gap_guard malformedLevels 2 1000 (by norm_num)
      (by decide)).1,
    (levelProgress_nonpos_gap_guard malformedLevels 2 1000 (by norm_num)
      (by decide)).2⟩

/-- A leaderboard entry as delivered by the admin/stats endpoint. -/
structure LBEntry where
  address : String
  total_points : Int

/-- The mutable leaderboard state of `LeaderboardApp` (constructor,
`main.js` lines 1827–1844): `currentPage`, `allUsers` and the `isLoading`
re-entrancy flag. -/
structure LBState where
  currentPage : Int
  allUsers : List LBEntry
  isLoading : Bool

/-- The initial state set by the `LeaderboardApp` constructor:
`currentPage = 1`, `allUsers = []`, `isLoading = false`. -/
def LBStateInitial : LBState :=
  { currentPage := 1, allUsers := [], isLoading := false }

/-- `this.constants.TOTAL_PAGES` (`main.js` line 1838): a fixed constant 10,
not derived from the number of loaded entries. -/
def TOTAL_PAGES : Int := 10

/-- `USERS_PER_PAGE` (`main.js` line 1837). -/
def USERS_PER_PAGE : Int := 10

/-- The state transition of a *successful* `LeaderboardApp.loadLeaderboard`
(`main.js` lines 1889–1922): if a load is already in flight the call
returns immediately; otherwise `allUsers` is replaced by
`data.leaderboard || []` (a JS array is always truthy, so `none` models an
absent field) and the `finally` block clears `isLoading`.  `currentPage`
is not touched, and no truncation of the entry list is performed. -/
def loadLeaderboardSuccess (s : LBState) (leaderboard : Option (List LBEntry)) :
    LBState :=
  if s.isLoading then s
  else { s with allUsers := leaderboard.getD [], isLoading := false }

/-- `LeaderboardApp.changePage(page)` (`main.js` lines 2011–2024): a no-op
when `page === currentPage`, `page < 1` or `page > TOTAL_PAGES`; otherwise
only `currentPage` is assigned (`renderTable` reads, but does not mutate,
the state). -/
def changePage (page : Int) (s : LBState) : LBState :=
  if page = s.currentPage ∨ page < 1 ∨ TOTAL_PAGES < page then s
  else { s with currentPage := page }

/-- The sample entry used in the pagination counterexample. -/
def lbEntryEx : LBEntry :=
  { address := "0x0000000000000000000000000000000000000000", total_points := 1 }

/-- A reachable pre-state: initial state, a successful 100-entry load, then
navigation to page 3 (the periodic 5-minute refresh timer re-runs
`loadLeaderboard` from exactly such states). -/
def lbStateOnPage3 : LBState :=
  changePage 3 (loadLeaderboardSuccess LBStateInitial (some (List.replicate 100 lbEntryEx)))

/-- C3 counterexample: reloading with a 101-entry response retains all 101
entries (more than the claimed 100), leaves `currentPage` at 3 (not reset
to 1), and the page bound is the constant 10 rather than
`ceil(101 / 10) = 11`. -/
theorem loadLeaderboard_retention_counterexample :
    (loadLeaderboardSuccess lbStateOnPage3
        (some (List.replicate 101 lbEntryEx))).allUsers.length = 101 ∧
    ¬ ((loadLeaderboardSuccess lbStateOnPage3
        (some (List.replicate 101 lbEntryEx))).allUsers.length ≤ 100) ∧
    (loadLeaderboardSuccess lbStateOnPage3
        (some (List.replicate 101 lbEntryEx))).currentPage = 3 ∧
    (loadLeaderboardSuccess lbStateOnPage3
        (some (List.replicate 101 lbEntryEx))).currentPage ≠ 1 ∧
    TOTAL_PAGES = 10 ∧
    TOTAL_PAGES ≠ (((loadLeaderboardSuccess lbStateOnPage3
        (some (List.replicate 101 lbEntryEx))).allUsers.length + 9) / 10 : Int) := by
  have hstate : lbStateOnPage3 =
      { currentPage := 3, allUsers := List.replicate 100 lbEntryEx,
        isLoading := false } := by
    unfold lbStateOnPage3 loadLeaderboardSuccess changePage LBStateInitial TOTAL_PAGES
    norm_num
  have hload : loadLeaderboardSuccess lbStateOnPage3
      (some (List.replicate 101 lbEntryEx)) =
      { currentPage := 3, allUsers := List.replicate 101 lbEntryEx,
        isLoading := false } := by
    rw [hstate]
    unfold loadLeaderboardSuccess
    norm_num
  rw [hload]
  simp [List.length_replicate, TOTAL_PAGES]

/-- C3 (amended): a successful `loadLeaderboard` stores the *entire*
received `leaderboard` array (no truncation to 100), leaves `currentPage`
unchanged (it is 1 only because the constructor set it so and nothing
resets it), clears `isLoading`, and the page bound is the fixed constant
`TOTAL_PAGES = 10`, independent of the entry count. -/
theorem loadLeaderboard_state_after_success (s : LBState)
    (leaderboard : Option (List LBEntry)) (h : s.isLoading = false) :
    (loadLeaderboardSuccess s leaderboard).allUsers = leaderboard.getD [] ∧
    (loadLeaderboardSuccess s leaderboard).allUsers.length =
      (leaderboard.getD []).length ∧
    (loadLeaderboardSuccess s leaderboard).currentPage = s.currentPage ∧
    (loadLeaderboardSuccess s leaderboard).isLoading = false ∧
    TOTAL_PAGES = 10 := by
  unfold loadLeaderboardSuccess
  rw [h]
  simp [TOTAL_PAGES]

/-- Witness for C3 (amended): a 150-entry load from the initial state keeps
all 150 entries. -/
theorem loadLeaderboard_state_after_success_witness :
    LBStateInitial.isLoading = false ∧
    ((loadLeaderboardSuccess LBStateInitial
        (some (List.replicate 150 lbEntryEx))).allUsers =
      List.replicate 150 lbEntryEx ∧
    (loadLeaderboardSuccess LBStateInitial
        (some (List.replicate 150 lbEntryEx))).allUsers.length = 150 ∧
    (loadLeaderboardSuccess LBStateInitial
        (some (List.replicate 150 lbEntryEx))).currentPage = 1 ∧
    (loadLeaderboardSuccess LBStateInitial
        (some (List.replicate 150 lbEntryEx))).isLoading = false ∧
    TOTAL_PAGES = 10) :=
  ⟨rfl, by
    have h := loadLeaderboard_state_after_success LBStateInitial
      (some (List.replicate 150 lbEntryEx)) rfl
    simpa [LBStateInitial] using h⟩

/-- C4: `changePage(n)` is a no-op — the whole state is unchanged — when
`n < 1`, `n > TOTAL_PAGES` or `n = currentPage`; for every other `n` in
`[1, TOTAL_PAGES]` it sets `currentPage := n` and leaves the stored entry
list (and the rest of the state) unchanged.  (`TOTAL_PAGES` is the code's
fixed page bound, the constant 10; see C3.) -/
theorem changePage_noop_or_sets_page (n : Int) (s : LBState) :
    ((n < 1 ∨ TOTAL_PAGES < n ∨ n = s.currentPage) → changePage n s = s) ∧
    (1 ≤ n → n ≤ TOTAL_PAGES → n ≠ s.currentPage →
      (changePage n s).currentPage = n ∧
      (changePage n s).allUsers = s.allUsers ∧
      (changePage n s).isLoading = s.isLoading) := by
  unfold changePage
  constructor
  · intro h
    rw [if_pos]
    rcases h with h | h | h
    · exact Or.inr (Or.inl h)
    · exact Or.inr (Or.inr h)
    · exact Or.inl h
  · intro h1 h2 h3
    rw [if_neg]
    · exact ⟨rfl, rfl, rfl⟩
    · push_neg
      exact ⟨h3, h1, h2⟩

/-- Witness for C4: from a state on page 1 with one stored entry,
`changePage 0`, `changePage 11` and `changePage 1` are no-ops, while
`changePage 3` moves to page 3 and keeps the entries. -/
theorem changePage_noop_or_sets_page_witness :
    changePage 0 { currentPage := 1, allUsers := [lbEntryEx], isLoading := false } =
      { currentPage := 1, allUsers := [lbEntryEx], isLoading := false } ∧
    changePage 11 { currentPage := 1, allUsers := [lbEntryEx], isLoading := false } =
      { currentPage := 1, allUsers := [lbEntryEx], isLoading := false } ∧
    changePage 1 { currentPage := 1, allUsers := [lbEntryEx], isLoading := false } =
      { currentPage := 1, allUsers := [lbEntryEx], isLoading := false } ∧
    ((changePage 3 { currentPage := 1, allUsers := [lbEntryEx], isLoading := false }).currentPage = 3 ∧
      (changePage 3 { currentPage := 1, allUsers := [lbEntryEx], isLoading := false }).allUsers = [lbEntryEx] ∧
      (changePage 3 { currentPage := 1, allUsers := [lbEntryEx], isLoading := false }).isLoading = false) :=
  ⟨(changePage_noop_or_sets_page 0
      { currentPage := 1, allUsers := [lbEntryEx], isLoading := false }).1
      (Or.inl (by norm_num)),
    (changePage_noop_or_sets_page 11
      { currentPage := 1, allUsers := [lbEntryEx], isLoading := false }).1
      (Or.inr (Or.inl (by norm_num [TOTAL_PAGES]))),
    (changePage_noop_or_sets_page 1
      { currentPage := 1, allUsers := [lbEntryEx], isLoading := false }).1
      (Or.inr (Or.inr rfl)),
    (changePage_noop_or_sets_page 3
      { currentPage := 1, allUsers := [lbEntryEx], isLoading := false }).2
      (by norm_num) (by norm_num [TOTAL_PAGES]) (by norm_num)⟩

/-- A whitespace character as stripped by `String.prototype.trim` (the
ASCII cases that matter for address input). -/
def jsWhitespaceChar (c : Char) : Bool :=
  c == ' ' || c == '\t' || c == '\n' || c == '\r'

/-- `input.trim()`: strips leading and trailing whitespace. -/
def jsTrim (s : String) : String :=
  String.mk (((s.data.dropWhile jsWhitespaceChar).reverse.dropWhile
    jsWhitespaceChar).reverse)

/-- A hexadecimal digit, i.e. the character class `[a-fA-F0-9]`. -/
def hexDigitChar (c : Char) : Bool :=
  (decide ('0' ≤ c) && decide (c ≤ '9')) ||
  (decide ('a' ≤ c) && decide (c ≤ 'f')) ||
  (decide ('A' ≤ c) && decide (c ≤ 'F'))

/-- `Utils.isValidAddress(address)` (`main.js` lines 188–190):
the regular-expression test `/^0x[a-fA-F0-9]{40}$/.test(address)`. -/
def isValidAddress (address : String) : Bool :=
  match address.data with
  | c1 :: c2 :: rest =>
    c1 == '0' && c2 == 'x' && rest.length == 40 && rest.all hexDigitChar
  | _ => false

/-- Observable outcome of the v2.0 `PharosAPI.checkWalletStats` entry guard
(`main.js` lines 394–410): either a request is issued with the trimmed
address, or an error message is shown and no request is made. -/
structure WalletDispatch where
  request : Option String
  errorMessage : Option String

/-- The validation prefix of the v2.0 `PharosAPI.checkWalletStats`
(`main.js` lines 394–410): `address = input.trim()`; empty → error, invalid
shape → error, otherwise the fetch is issued with `address`. -/
def checkWalletStatsSubmit (input : String) : WalletDispatch :=
  let address := jsTrim input
  if address = "" then
    { request := none, errorMessage := some "Please enter a wallet address" }
  else if isValidAddress address = false then
    { request := none, errorMessage := some "Please enter a valid Ethereum address" }
  else { request := some address, errorMessage := none }

/-- One of the characters removed by `SecurityValidator.sanitizeInput`
(`main.js` line 964): the class `[<>'"&]` (the quote characters are written
via their code points 39 and 34). -/
def dangerousChar (c : Char) : Bool :=
  c == '<' || c == '>' || c == Char.ofNat 39 || c == Char.ofNat 34 || c == '&'

/-- `SecurityValidator.sanitizeInput(input)` (`main.js` lines 958–966):
trim, remove the dangerous characters, truncate to 100 characters. -/
def sanitizeInput (input : String) : String :=
  String.mk (((jsTrim input).data.filter (fun c => !(dangerousChar c))).take 100)

/-- `String.prototype.toLowerCase` (character-wise, ASCII). -/
def toLowerStr (s : String) : String := String.mk (s.data.map Char.toLower)

/-- A lowercase hexadecimal digit, the character class `[a-f0-9]`. -/
def lowerHexDigitChar (c : Char) : Bool :=
  (decide ('0' ≤ c) && decide (c ≤ '9')) || (decide ('a' ≤ c) && decide (c ≤ 'f'))

/-- The test `/^0x[a-f0-9]{40}$/.test(s)` used at `main.js` line 983. -/
def matchesLowerAddressShape (s : String) : Bool :=
  match s.data with
  | c1 :: c2 :: rest =>
    c1 == '0' && c2 == 'x' && rest.length == 40 && rest.all lowerHexDigitChar
  | _ => false

/-- The test `s.startsWith('0x')` used at `main.js` line 975. -/
def startsWith0x (s : String) : Bool :=
  match s.data with
  | c1 :: c2 :: _ => c1 == '0' && c2 == 'x'
  | _ => false

/-- `SecurityValidator.validateEthereumAddress(address)` (`main.js` lines
968–988): sanitize and lowercase the input, then throw (`none`) unless the
result starts with `0x`, has length 42 and matches `/^0x[a-f0-9]{40}$/`;
on success the *sanitized* address is returned and sent to the API
(`APIService.checkWallet`, lines 1205–1214). -/
def validateEthereumAddress (address : String) : Option String :=
  let sanitized := toLowerStr (sanitizeInput address)
  if startsWith0x sanitized = false then none
  else if sanitized.data.length ≠ 42 then none
  else if matchesLowerAddressShape sanitized = false then none
  else some sanitized

/-- C5 counterexample: the 43-character input `0x&` followed by 40 `a`s does
*not* match `^0x[a-fA-F0-9]{40}$`, yet the v4.0 `SecurityValidator` accepts
it (the sanitizer strips the `&`) and a request is issued — no user-facing
error. -/
theorem validateEthereumAddress_sanitize_counterexample :
    isValidAddress "0x&aaaaaaaaaaaaaaaaaaaaaaaaaaaaaaaaaaaaaaaa" = false ∧
    validateEthereumAddress "0x&aaaaaaaaaaaaaaaaaaaaaaaaaaaaaaaaaaaaaaaa" =
      some "0xaaaaaaaaaaaaaaaaaaaaaaaaaaaaaaaaaaaaaaaa" ∧
    (validateEthereumAddress "0x&aaaaaaaaaaaaaaaaaaaaaaaaaaaaaaaaaaaaaaaa").isSome
      = true := by
  refine ⟨by decide, by decide, by decide⟩

/-- C5 (amended): the v2.0 controller issues a request exactly when the
trimmed input matches `^0x[a-fA-F0-9]{40}$`, and shows an error (with no
request) otherwise.  The v4.0 `SecurityValidator` instead accepts exactly
the inputs whose *sanitized* (trimmed, `[<>'"&]`-stripped, 100-truncated,
lowercased) form matches `^0x[a-f0-9]{40}$`, so inputs containing stripped
characters can be accepted even though they do not match the shape. -/
theorem walletCheck_accepts_iff_shape (input : String) :
    ((checkWalletStatsSubmit input).request.isSome = isValidAddress (jsTrim input)) ∧
    ((checkWalletStatsSubmit input).errorMessage.isSome =
      !(checkWalletStatsSubmit input).request.isSome) ∧
    ((validateEthereumAddress input).isSome =
      matchesLowerAddressShape (toLowerStr (sanitizeInput input))) := by
  refine ⟨?_, ?_, ?_⟩
  · simp only [checkWalletStatsSubmit]
    split_ifs with h1 h2
    · rw [h1]
      decide
    · simp [h2]
    · simp only [Option.isSome_some]
      cases hv : isValidAddress (jsTrim input)
      · exact absurd hv h2
      · rfl
  · simp only [checkWalletStatsSubmit]
    split_ifs <;> rfl
  · simp only [validateEthereumAddress]
    rcases hdata : (toLowerStr (sanitizeInput input)).data with _ | ⟨c1, _ | ⟨c2, rest⟩⟩
    · simp [startsWith0x, matchesLowerAddressShape, hdata]
    · simp [startsWith0x, matchesLowerAddressShape, hdata]
    · cases h1 : c1 == '0'
      · simp [startsWith0x, matchesLowerAddressShape, hdata, h1]
      · cases h2 : c2 == 'x'
        · simp [startsWith0x, matchesLowerAddressShape, hdata, h1, h2]
        · by_cases hlen : rest.length = 40
          · simp only [startsWith0x, matchesLowerAddressShape, hdata, h1, h2,
              List.length_cons, hlen]
            norm_num
            cases hall : rest.all lowerHexDigitChar <;> simp [hall] <;>
              simpa using hall
          · have hlen42 : (c1 :: c2 :: rest).length ≠ 42 := by
              simp [List.length_cons]
              omega
            simp [startsWith0x, matchesLowerAddressShape, hdata, h1, h2, hlen42, hlen]

/-- The display-surface state touched by the v2.0 wallet-check flow:
`show` classes of the loading/error/results regions, the submit button,
and header/footer visibility. -/
structure UIStateV1 where
  loadingShow : Bool
  errorShow : Bool
  resultsShow : Bool
  errorText : String
  checkButtonDisabled : Bool
  checkButtonText : String
  footerDisplay : Bool
  headerDisplay : Bool

/-- `UIState.showError(message)` (`main.js` lines 297–310). -/
def showErrorV1 (message : String) (s : UIStateV1) : UIStateV1 :=
  { s with
    errorText := message
    errorShow := true
    loadingShow := false
    resultsShow := false
    footerDisplay := true }

/-- `UIState.hideError()` (`main.js` lines 312–314). -/
def hideErrorV1 (s : UIStateV1) : UIStateV1 :=
  { s with errorShow := false }

/-- `UIState.showLoading()` (`main.js` lines 316–330). -/
def showLoadingV1 (s : UIStateV1) : UIStateV1 :=
  { s with
    loadingShow := true
    resultsShow := false
    errorShow := false
    checkButtonDisabled := true
    checkButtonText := "Checking..."
    headerDisplay := false
    footerDisplay := false }

/-- `UIState.hideLoading()` (`main.js` lines 332–341). -/
def hideLoadingV1 (s : UIStateV1) : UIStateV1 :=
  { s with
    loadingShow := false
    checkButtonDisabled := false
    checkButtonText := "Check Statistics"
    headerDisplay := true }

/-- The display effects of the v2.0 `PharosAPI.displayResults` (`main.js`
lines 446–526): hide the error, show the results region, hide the footer. -/
def displayResultsV1UI (s : UIStateV1) : UIStateV1 :=
  { hideErrorV1 s with
    resultsShow := true
    footerDisplay := false }

/-- Outcome of a wallet-check request that entered the requesting state:
resolved payload, transport failure, non-success HTTP status, a
`success: false` response body, or any other thrown error. -/
inductive RequestOutcome where
  | success
  | networkFailure
  | httpNotOk (status : Int) (errField : Option String)
  | appFailure (errField : Option String)
  | thrownError (message : String)

/-- The error message the v2.0 `catch` block passes to `showError`
(`err.message || 'Failed to fetch wallet statistics. Please try again.'`). -/
def outcomeMessageV1 : RequestOutcome → String
  | RequestOutcome.success => ""
  | RequestOutcome.networkFailure => "Failed to fetch"
  | RequestOutcome.httpNotOk status err =>
    (err.getD ("HTTP error! status: " ++ toString status))
  | RequestOutcome.appFailure err => err.getD "Failed to fetch wallet statistics"
  | RequestOutcome.thrownError message => message

/-- The requesting part of the v2.0 `PharosAPI.checkWalletStats` (`main.js`
lines 410–444): `showLoading()`, then either `displayResults(data)` or the
`catch` branch `showError(...)`, and in all cases the `finally` block
`hideLoading()`. -/
def checkWalletStatsV1 (o : RequestOutcome) (s : UIStateV1) : UIStateV1 :=
  let s1 := showLoadingV1 s
  let s2 := match o with
    | RequestOutcome.success => displayResultsV1UI s1
    | o => showErrorV1 (outcomeMessageV1 o) s1
  hideLoadingV1 s2

/-- The display-surface state touched by the v4.0 `UIStateManager`
(`hidden` attributes instead of `show` classes, plus `currentState`). -/
structure UIStateV2 where
  loadingHidden : Bool
  errorHidden : Bool
  resultsHidden : Bool
  errorText : String
  checkButtonDisabled : Bool
  buttonText : String
  footerDisplay : Bool
  headerDisplay : Bool
  currentState : String

/-- `UIStateManager.hideError()` (`main.js` lines 1615–1624). -/
def hideErrorV2 (s : UIStateV2) : UIStateV2 :=
  let s1 := { s with errorHidden := true }
  if s1.currentState = "error" then { s1 with currentState := "idle" } else s1

/-- `UIStateManager.showLoading()` (`main.js` lines 1518–1556): sets
`currentState = 'loading'`, disables the button, shows the loading region,
hides results/header/footer, then calls `hideError()`. -/
def showLoadingV2 (s : UIStateV2) : UIStateV2 :=
  hideErrorV2 { s with
    currentState := "loading"
    checkButtonDisabled := true
    buttonText := "Checking..."
    loadingHidden := false
    resultsHidden := true
    headerDisplay := false
    footerDisplay := false }

/-- `UIStateManager.hideLoading()` (`main.js` lines 1558–1586). -/
def hideLoadingV2 (s : UIStateV2) : UIStateV2 :=
  { s with
    currentState := "idle"
    checkButtonDisabled := false
    buttonText := "Check Statistics"
    loadingHidden := true
    headerDisplay := true }

/-- `UIStateManager.showError(message)` (`main.js` lines 1588–1613): sets
`currentState = 'error'`, calls `hideLoading()` (which overwrites
`currentState` to `'idle'`), then shows the error region and the footer. -/
def showErrorV2 (message : String) (s : UIStateV2) : UIStateV2 :=
  { hideLoadingV2 { s with currentState := "error" } with
    errorText := message
    errorHidden := false
    footerDisplay := true }

/-- The display effects of `UIStateManager.displayResults` (`main.js` lines
1626–1700): `hideLoading()`, `hideError()`, `currentState = 'results'`,
footer hidden, results region revealed. -/
def displayResultsV2UI (s : UIStateV2) : UIStateV2 :=
  { hideErrorV2 (hideLoadingV2 s) with
    currentState := "results"
    footerDisplay := false
    resultsHidden := false }

/-- The error message computed by the v4.0 `catch` block (`main.js` lines
1497–1515), distinguishing validation, rate-limited and network errors. -/
def outcomeMessageV2 : RequestOutcome → String
  | RequestOutcome.networkFailure =>
    "Network error. Please check your connection and try again."
  | RequestOutcome.httpNotOk status _ =>
    if status = 429 then "Too many requests. Please wait a moment and try again."
    else "Network error. Please check your connection and try again."
  | RequestOutcome.appFailure err =>
    err.getD "Failed to fetch wallet statistics. Please try again."
  | _ => "Failed to fetch wallet statistics. Please try again."

/-- `UIStateManager.checkWalletStats` (`main.js` lines 1478–1516):
`showLoading()`, then `displayResults(result)` on success (which begins by
calling `hideLoading()`), or `showError(...)` in the `catch` block (which
also begins by calling `hideLoading()`).  There is no `finally`. -/
def checkWalletStatsV2 (o : RequestOutcome) (s : UIStateV2) : UIStateV2 :=
  let s1 := showLoadingV2 s
  match o with
  | RequestOutcome.success => displayResultsV2UI s1
  | o => showErrorV2 (outcomeMessageV2 o) s1

/-- C6: for every outcome of a wallet-check request that entered the
requesting state — success, network failure, non-success HTTP status,
application-level failure flag, or a thrown error — both the v2.0 flow
(via its `finally` block) and the v4.0 flow (via `hideLoading()` at the
start of both `displayResults` and `showError`) tear the loading state
down: the loading indicator is hidden and the submit control re-enabled. -/
theorem checkWalletStats_loading_teardown (o : RequestOutcome)
    (s1 : UIStateV1) (s2 : UIStateV2) :
    (checkWalletStatsV1 o s1).loadingShow = false ∧
    (checkWalletStatsV1 o s1).checkButtonDisabled = false ∧
    (checkWalletStatsV1 o s1).checkButtonText = "Check Statistics" ∧
    (checkWalletStatsV2 o s2).loadingHidden = true ∧
    (checkWalletStatsV2 o s2).checkButtonDisabled = false ∧
    (checkWalletStatsV2 o s2).buttonText = "Check Statistics" := by
  cases o <;>
    simp [checkWalletStatsV1, checkWalletStatsV2, showLoadingV1, showLoadingV2,
      hideLoadingV1, hideLoadingV2, showErrorV1, showErrorV2, hideErrorV1,
      hideErrorV2, displayResultsV1UI, displayResultsV2UI]

/-- Number of milliseconds in a day (`1000 * 60 * 60 * 24`). -/
def MS_PER_DAY : Int := 86400000

/-- Summary of a membership-start input as the browser sees it: the field is
absent (or the empty string), present but unparseable (`new Date(...)` is
`Invalid Date`, `getTime()` is `NaN`), or parsed to a timestamp `t` in
milliseconds since the epoch. -/
inductive MemberSinceInput where
  | absent
  | unparseable
  | parsed (t : Int)

/-- `MemberSinceUtils.formatMemberSince(memberSinceString)` (`main.js` lines
32–78) at time `now` (ms): absent and unparseable inputs give
`{days: 0, formattedDate: 'Unknown'}`; otherwise
`days = Math.floor(Math.abs(now - memberDate) / 86400000)` with the locale
date rendering (abstracted here to the timestamp's canonical rendering). -/
def formatMemberSince : MemberSinceInput → Int → Int × String
  | MemberSinceInput.absent, _ => (0, "Unknown")
  | MemberSinceInput.unparseable, _ => (0, "Unknown")
  | MemberSinceInput.parsed t, now =>
    (⌊((|now - t| : Int) : Rat) / (MS_PER_DAY : Rat)⌋, toString t)

/-- `UIStateManager.calculateActiveDays(memberSince)` (`main.js` lines
1806–1812; the v2.1 snapshot repeats it at lines 2666–2673) at time `now`:
`0` when the field is absent; otherwise
`Math.ceil(Math.abs(now - startDate) / 86400000)`.  An unparseable date is
*not* guarded: `now - Invalid Date` is `NaN` and `Math.ceil(NaN)` is `NaN`,
modelled as `none`. -/
def calculateActiveDays : MemberSinceInput → Int → Option Int
  | MemberSinceInput.absent, _ => some 0
  | MemberSinceInput.unparseable, _ => none
  | MemberSinceInput.parsed t, now =>
    some ⌈((|now - t| : Int) : Rat) / (MS_PER_DAY : Rat)⌉

/-- C7 counterexample: for a membership start 1.5 days (129600000 ms) before
now, the whole number of elapsed days is 1 (as `formatMemberSince` reports),
but the rendered active-days value `calculateActiveDays` — the value shown
in the v4.0/v2.1 result card — is `Math.ceil(1.5) = 2`; moreover an
unparseable timestamp yields `NaN` (no day count of 0) there. -/
theorem calculateActiveDays_ceil_counterexample :
    calculateActiveDays (MemberSinceInput.parsed 0) 129600000 = some 2 ∧
    (formatMemberSince (MemberSinceInput.parsed 0) 129600000).1 = 1 ∧
    (2 : Int) ≠ 1 ∧
    calculateActiveDays MemberSinceInput.unparseable 129600000 = none := by
  refine ⟨?_, ?_, by norm_num, rfl⟩
  · unfold calculateActiveDays MS_PER_DAY
    norm_num
    rw [Int.ceil_eq_iff]
    constructor <;> norm_num
  · unfold formatMemberSince MS_PER_DAY
    norm_num

/-- C7 (amended): `formatMemberSince` renders `floor(|now − t| / day)` days
and `'Unknown'` with 0 days on absent *or* unparseable timestamps, while
`calculateActiveDays` renders `ceil(|now − t| / day)` days — at most one
more than the floor — returns 0 only for an *absent* timestamp, and
propagates `NaN` for an unparseable one; both day counts are non-negative
(the absolute difference makes future-dated timestamps safe). -/
theorem memberSince_days_rendering (t now : Int) :
    formatMemberSince MemberSinceInput.absent now = (0, "Unknown") ∧
    formatMemberSince MemberSinceInput.unparseable now = (0, "Unknown") ∧
    (formatMemberSince (MemberSinceInput.parsed t) now).1 =
      ⌊((|now - t| : Int) : Rat) / (MS_PER_DAY : Rat)⌋ ∧
    0 ≤ (formatMemberSince (MemberSinceInput.parsed t) now).1 ∧
    calculateActiveDays MemberSinceInput.absent now = some 0 ∧
    calculateActiveDays MemberSinceInput.unparseable now = none ∧
    calculateActiveDays (MemberSinceInput.parsed t) now =
      some ⌈((|now - t| : Int) : Rat) / (MS_PER_DAY : Rat)⌉ ∧
    0 ≤ (calculateActiveDays (MemberSinceInput.parsed t) now).getD 0 ∧
    (formatMemberSince (MemberSinceInput.parsed t) now).1 ≤
      (calculateActiveDays (MemberSinceInput.parsed t) now).getD 0 ∧
    (calculateActiveDays (MemberSinceInput.parsed t) now).getD 0 ≤
      (formatMemberSince (MemberSinceInput.parsed t) now).1 + 1 := by
  have habs : (0 : Rat) ≤ ((|now - t| : Int) : Rat) := by
    exact_mod_cast abs_nonneg (now - t)
  have hq : (0 : Rat) ≤ ((|now - t| : Int) : Rat) / (MS_PER_DAY : Rat) := by
    apply div_nonneg habs
    unfold MS_PER_DAY
    norm_num
  refine ⟨rfl, rfl, rfl, ?_, rfl, rfl, rfl, ?_, ?_, ?_⟩
  · show 0 ≤ ⌊((|now - t| : Int) : Rat) / (MS_PER_DAY : Rat)⌋
    exact Int.floor_nonneg.mpr hq
  · show 0 ≤ ⌈((|now - t| : Int) : Rat) / (MS_PER_DAY : Rat)⌉
    exact Int.ceil_nonneg hq
  · show ⌊((|now - t| : Int) : Rat) / (MS_PER_DAY : Rat)⌋ ≤
      ⌈((|now - t| : Int) : Rat) / (MS_PER_DAY : Rat)⌉
    exact Int.floor_le_ceil _
  · show ⌈((|now - t| : Int) : Rat) / (MS_PER_DAY : Rat)⌉ ≤
      ⌊((|now - t| : Int) : Rat) / (MS_PER_DAY : Rat)⌋ + 1
    exact Int.ceil_le_floor_add_one _

/-- The rank / total-users rendering of `displayResults` (`main.js` lines
456–462 in v2.0 and 1652–1663 in v4.0): the branch tests the *truthiness*
of `data.exact_rank` (`if (data.exact_rank && ...)`), rendering
`'#' + rank` when truthy and `'Unranked'` otherwise; in both branches the
total-user count is `data.total_users_count || 270000`. -/
def displayRank (exact_rank : Option Int) (total_users_count : Option Int) :
    String × Int :=
  if exact_rank.getD 0 ≠ 0 then
    ("#" ++ toString (exact_rank.getD 0), jsOr total_users_count 270000)
  else ("Unranked", jsOr total_users_count 270000)

/-- C10: a payload carrying `exact_rank: 0` (a falsy value) renders exactly
like a payload with no `exact_rank` at all: `'Unranked'` plus the fallback
total-user count — the display surface cannot distinguish rank 0 from an
absent rank. -/
theorem displayResults_zero_rank_unranked (total_users_count : Option Int) :
    displayRank (some 0) total_users_count =
      ("Unranked", jsOr total_users_count 270000) ∧
    displayRank (some 0) total_users_count = displayRank none total_users_count ∧
    displayRank (some 0) none = ("Unranked", 270000) := by
  refine ⟨?_, ?_, by decide⟩
  · unfold displayRank
    norm_num
  · unfold displayRank
    norm_num
